import Mathlib

/-!
Shallow embedding of the Profile Reconciliation & Scoring module of the
EcoSnap dashboard page (`src/EcoSnap-v4/src/app/dashboard/page.tsx`).

Categories arrive from the AI classifier as strings, so waste categories are
modelled as `String`; the `WASTE_POINTS` record becomes a partial function
from strings to point values, mirroring a JS record lookup that yields
`undefined` for unknown keys.  JS numbers are modelled as `Int` (scores,
points, timestamps) and `ℚ` (CO2 estimate, confidence); `toFixed(1)` followed
by `parseFloat` is modelled as exact rounding to one decimal place over `ℚ`.
-/

namespace EcoSnap

/-- The user profile persisted to local storage (`UserProfile` in
`@/lib/types`, field set as used by the dashboard page and
`defaultUserProfile`). -/
structure UserProfile where
  id : String
  displayName : String
  email : String
  avatar : String
  score : Int
  co2Managed : ℚ
  totalEwaste : Nat
  totalPlastic : Nat
  totalBiowaste : Nat
  totalCardboard : Nat
  totalPaper : Nat
  totalGlass : Nat
  totalMetal : Nat
  totalOrganic : Nat
  totalOther : Nat
  totalPlasticOther : Nat
  totalPlasticPete : Nat
  totalPlasticHdpe : Nat
  totalPlasticPp : Nat
  totalPlasticPs : Nat
  itemsClassified : Nat
  challengesCompleted : Nat
  badges : List String
deriving DecidableEq

/-- Names of the per-category cumulative quantity counters of `UserProfile`. -/
inductive CounterKey where
  | totalEwaste
  | totalPlastic
  | totalBiowaste
  | totalCardboard
  | totalPaper
  | totalGlass
  | totalMetal
  | totalOrganic
  | totalOther
  | totalPlasticOther
  | totalPlasticPete
  | totalPlasticHdpe
  | totalPlasticPp
  | totalPlasticPs
deriving DecidableEq

/-- Read the per-category counter named by a `CounterKey`. -/
def getCounter (p : UserProfile) : CounterKey → Nat
  | .totalEwaste => p.totalEwaste
  | .totalPlastic => p.totalPlastic
  | .totalBiowaste => p.totalBiowaste
  | .totalCardboard => p.totalCardboard
  | .totalPaper => p.totalPaper
  | .totalGlass => p.totalGlass
  | .totalMetal => p.totalMetal
  | .totalOrganic => p.totalOrganic
  | .totalOther => p.totalOther
  | .totalPlasticOther => p.totalPlasticOther
  | .totalPlasticPete => p.totalPlasticPete
  | .totalPlasticHdpe => p.totalPlasticHdpe
  | .totalPlasticPp => p.totalPlasticPp
  | .totalPlasticPs => p.totalPlasticPs

/-- Increment the per-category counter named by a `CounterKey`
(`newUserDataState[keyToUpdate] = Number(newUserDataState[keyToUpdate] || 0) + 1`). -/
def incCounter (p : UserProfile) : CounterKey → UserProfile
  | .totalEwaste => { p with totalEwaste := p.totalEwaste + 1 }
  | .totalPlastic => { p with totalPlastic := p.totalPlastic + 1 }
  | .totalBiowaste => { p with totalBiowaste := p.totalBiowaste + 1 }
  | .totalCardboard => { p with totalCardboard := p.totalCardboard + 1 }
  | .totalPaper => { p with totalPaper := p.totalPaper + 1 }
  | .totalGlass => { p with totalGlass := p.totalGlass + 1 }
  | .totalMetal => { p with totalMetal := p.totalMetal + 1 }
  | .totalOrganic => { p with totalOrganic := p.totalOrganic + 1 }
  | .totalOther => { p with totalOther := p.totalOther + 1 }
  | .totalPlasticOther => { p with totalPlasticOther := p.totalPlasticOther + 1 }
  | .totalPlasticPete => { p with totalPlasticPete := p.totalPlasticPete + 1 }
  | .totalPlasticHdpe => { p with totalPlasticHdpe := p.totalPlasticHdpe + 1 }
  | .totalPlasticPp => { p with totalPlasticPp := p.totalPlasticPp + 1 }
  | .totalPlasticPs => { p with totalPlasticPs := p.totalPlasticPs + 1 }

/-- The `WASTE_POINTS` record: category string to point value; `none` models
the `undefined` a JS record lookup yields on an unknown key. -/
def WASTE_POINTS : String → Option Int
  | "ewaste" => some 100
  | "plastic" => some 50
  | "biowaste" => some 60
  | "cardboard" => some 80
  | "paper" => some 70
  | "glass" => some 30
  | "metal" => some 40
  | "organic" => some 60
  | "other" => some 10
  | "plasticOther" => some 20
  | "plasticPete" => some 55
  | "plasticHdpe" => some 55
  | "plasticPp" => some 45
  | "plasticPs" => some 15
  | "recyclable" => some 50
  | "compostable" => some 60
  | "non-recyclable" => some 10
  | _ => none

/-- `const CO2_SAVED_PER_POINT = 0.1;` -/
def CO2_SAVED_PER_POINT : ℚ := 1 / 10

/-- `WASTE_POINTS[aiDeterminedSpecificCategory] || WASTE_POINTS.other`: the
fallback fires when the lookup is `undefined` (unknown key) or falsy (`0`). -/
def pointsEarned (category : String) : Int :=
  match WASTE_POINTS category with
  | some p => if p = 0 then (WASTE_POINTS "other").getD 0 else p
  | none => (WASTE_POINTS "other").getD 0

/-- Exact-rational model of `parseFloat(x.toFixed(1))`: round to one decimal
place, ties away from zero on the nonnegative values that occur here. -/
def roundTenths (q : ℚ) : ℚ := ((round (q * 10) : ℤ) : ℚ) / 10

/-- The `quantityKey` of the `verticalLogCategories` entry whose `id` equals
the category, when one exists (`verticalLogCategories.find(cat => cat.id ===
aiDeterminedSpecificCategory)`).  The table has entries for exactly the twelve
categories listed in the source array; `plastic`, `organic`, `recyclable`,
`compostable` and `non-recyclable` have no entry. -/
def quantityKeyFor : String → Option CounterKey
  | "cardboard" => some .totalCardboard
  | "paper" => some .totalPaper
  | "glass" => some .totalGlass
  | "plasticPete" => some .totalPlasticPete
  | "plasticHdpe" => some .totalPlasticHdpe
  | "plasticPp" => some .totalPlasticPp
  | "plasticPs" => some .totalPlasticPs
  | "plasticOther" => some .totalPlasticOther
  | "ewaste" => some .totalEwaste
  | "biowaste" => some .totalBiowaste
  | "metal" => some .totalMetal
  | "other" => some .totalOther
  | _ => none

/-- The ScoringEngine: the profile update performed inside the
`setUserData(prevData => ...)` callback of `handleClassify`.  Adds the earned
points to the score, recomputes the CO2 estimate with one-decimal rounding,
increments `itemsClassified`, and increments the one per-category counter
whose `verticalLogCategories` entry matches the category, when such an entry
exists. -/
def applyClassification (prevData : UserProfile) (category : String) : UserProfile :=
  let pts := pointsEarned category
  let base : UserProfile :=
    { prevData with
      score := prevData.score + pts
      co2Managed := roundTenths (prevData.co2Managed + (pts : ℚ) * CO2_SAVED_PER_POINT)
      itemsClassified := prevData.itemsClassified + 1 }
  match quantityKeyFor category with
  | some k => incCounter base k
  | none => base

/-- `defaultUserProfile` from the dashboard page. -/
def defaultUserProfile : UserProfile :=
  { id := "localUser"
    displayName := "Guest"
    email := ""
    avatar := "https://placehold.co/100x100.png?text=G"
    score := 0
    co2Managed := 0
    totalEwaste := 0
    totalPlastic := 0
    totalBiowaste := 0
    totalCardboard := 0
    totalPaper := 0
    totalGlass := 0
    totalMetal := 0
    totalOrganic := 0
    totalOther := 0
    totalPlasticOther := 0
    totalPlasticPete := 0
    totalPlasticHdpe := 0
    totalPlasticPp := 0
    totalPlasticPs := 0
    itemsClassified := 0
    challengesCompleted := 0
    badges := [] }

/-- A level tier (`interface LevelInfo`).  `targetForNext = none` models the
JS `Infinity` target of the top tier. -/
structure LevelInfo where
  name : String
  minScore : Int
  targetForNext : Option Int
  cardColor : String
  textColor : String
  badgeIconContainerColor : String
  badgeImageUrl : String
  progressBarIndicatorColor : String
  progressBarTrackColor : String
deriving DecidableEq

/-- First element of the `LEVELS` array. -/
def bronzeLevel : LevelInfo :=
  { name := "Bronze", minScore := 0, targetForNext := some 500,
    cardColor := "bg-purple-600", textColor := "text-white",
    badgeIconContainerColor := "bg-transparent",
    badgeImageUrl := "/assets/images/bronze-badge.png",
    progressBarIndicatorColor := "bg-sky-400", progressBarTrackColor := "bg-purple-700" }

/-- Second element of the `LEVELS` array. -/
def silverLevel : LevelInfo :=
  { name := "Silver", minScore := 500, targetForNext := some 1500,
    cardColor := "bg-purple-600", textColor := "text-white",
    badgeIconContainerColor := "bg-transparent",
    badgeImageUrl := "/assets/images/silver-badge.png",
    progressBarIndicatorColor := "bg-sky-400", progressBarTrackColor := "bg-purple-700" }

/-- Third element of the `LEVELS` array. -/
def goldLevel : LevelInfo :=
  { name := "Gold", minScore := 1500, targetForNext := some 3000,
    cardColor := "bg-purple-600", textColor := "text-white",
    badgeIconContainerColor := "bg-transparent",
    badgeImageUrl := "/assets/images/gold-badge.png",
    progressBarIndicatorColor := "bg-sky-400", progressBarTrackColor := "bg-purple-700" }

/-- Fourth element of the `LEVELS` array (`targetForNext: Infinity`). -/
def diamondLevel : LevelInfo :=
  { name := "Diamond", minScore := 3000, targetForNext := none,
    cardColor := "bg-purple-600", textColor := "text-white",
    badgeIconContainerColor := "bg-transparent",
    badgeImageUrl := "/assets/images/diamond-badge.png",
    progressBarIndicatorColor := "bg-sky-400", progressBarTrackColor := "bg-purple-700" }

/-- The ordered `LEVELS` table. -/
def LEVELS : List LevelInfo := [bronzeLevel, silverLevel, goldLevel, diamondLevel]

/-- The body of `getCurrentLevel`'s downward loop: scan a list (the reversed
`LEVELS`, i.e. from index `LEVELS.length - 1` down to `0`) and return the
first entry whose `minScore` is at most the score. -/
def findFirstLevel (score : Int) : List LevelInfo → Option LevelInfo
  | [] => none
  | l :: ls => if score ≥ l.minScore then some l else findFirstLevel score ls

/-- `getCurrentLevel(score)`: loop `i` from `LEVELS.length - 1` down to `0`,
returning `LEVELS[i]` on the first `score >= LEVELS[i].minScore`, and
`LEVELS[0]` when no tier matched. -/
def getCurrentLevel (score : Int) : LevelInfo :=
  match findFirstLevel score LEVELS.reverse with
  | some l => l
  | none => bronzeLevel

/-- The inline progress computation of the dashboard page, parameterised by
the current level as the source is over `currentLevel`:
`Math.min((pointsEarnedInLevel / pointsToNextLevelRange) * 100, 100)` when the
range is positive, `100`/`0` on a degenerate range according to
`score >= minScore`, and `100` for an unbounded (`Infinity`) target. -/
def scorePercentage (score : Int) (currentLevel : LevelInfo) : ℚ :=
  match currentLevel.targetForNext with
  | none => 100
  | some target =>
    let pointsEarnedInLevel : Int := max 0 (score - currentLevel.minScore)
    let pointsToNextLevelRange : Int := target - currentLevel.minScore
    if pointsToNextLevelRange > 0 then
      min (((pointsEarnedInLevel : ℚ) / (pointsToNextLevelRange : ℚ)) * 100) 100
    else if score ≥ currentLevel.minScore then 100 else 0

/-- Identity hints read inside `checkLoginStatus`: the `isLoggedIn` flag and
the `userEmail` / `userName` entries of local storage (`none` models a missing
entry, `localStorage.getItem` returning `null`). -/
structure AuthEnv where
  isLoggedIn : Bool
  userEmail : Option String
  userName : Option String
deriving DecidableEq

/-- JS truthiness of a possibly-missing string: `null`, `undefined` and the
empty string are falsy. -/
def optTruthy : Option String → Bool
  | none => false
  | some s => s != ""

/-- `email.split('@')[0]`: the part before the first at sign. -/
def emailLocalPart (email : String) : String := (email.splitOn "@").headD ""

/-- The re-synchronization guard of `checkLoginStatus`:
`storedUserData.id === 'localUser' || (userEmail && storedUserData.email !==
userEmail) || (userName && storedUserData.displayName !== userName)`. -/
def needsSync (env : AuthEnv) (stored : UserProfile) : Bool :=
  stored.id == "localUser"
    || (optTruthy env.userEmail && stored.email != env.userEmail.getD "")
    || (optTruthy env.userName && stored.displayName != env.userName.getD "")

/-- The stat-preservation guard repeated on every counter field of the re-
initialized profile: `userEmail && storedUserData.email === userEmail`. -/
def preserveStats (env : AuthEnv) (stored : UserProfile) : Bool :=
  optTruthy env.userEmail && stored.email == env.userEmail.getD ""

/-- `const displayName = userName || (userEmail ? userEmail.split('@')[0] :
'User');` -/
def displayNameFor (env : AuthEnv) : String :=
  if optTruthy env.userName then env.userName.getD ""
  else if optTruthy env.userEmail then emailLocalPart (env.userEmail.getD "")
  else "User"

/-- The re-initialized profile built inside `checkLoginStatus` when the sync
guard fires: spread of `defaultUserProfile`, identity fields from the login
hints, and each counter either preserved from the stored profile (when the
stored email matches a truthy login email) or zeroed. -/
def syncedProfile (env : AuthEnv) (stored : UserProfile) : UserProfile :=
  let displayName := displayNameFor env
  let keep := preserveStats env stored
  { defaultUserProfile with
    id := if optTruthy env.userEmail then env.userEmail.getD "" else "firebaseUser"
    displayName := displayName
    email := env.userEmail.getD ""
    avatar := "https://placehold.co/100x100.png?text=" ++ (displayName.take 2).toUpper
    score := if keep then stored.score else 0
    co2Managed := if keep then stored.co2Managed else 0
    itemsClassified := if keep then stored.itemsClassified else 0
    totalCardboard := if keep then stored.totalCardboard else 0
    totalPaper := if keep then stored.totalPaper else 0
    totalGlass := if keep then stored.totalGlass else 0
    totalPlastic := if keep then stored.totalPlastic else 0
    totalOther := if keep then stored.totalOther else 0
    totalEwaste := if keep then stored.totalEwaste else 0
    totalBiowaste := if keep then stored.totalBiowaste else 0
    totalMetal := if keep then stored.totalMetal else 0
    totalOrganic := if keep then stored.totalOrganic else 0
    totalPlasticOther := if keep then stored.totalPlasticOther else 0
    totalPlasticPete := if keep then stored.totalPlasticPete else 0
    totalPlasticHdpe := if keep then stored.totalPlasticHdpe else 0
    totalPlasticPp := if keep then stored.totalPlasticPp else 0
    totalPlasticPs := if keep then stored.totalPlasticPs else 0
    challengesCompleted := if keep then stored.challengesCompleted else 0
    badges := if keep then stored.badges else [] }

/-- The profile-reconciliation portion of `checkLoginStatus`
(`reconcileOnAuthChange` of the spec): given the auth environment and the
profile read from local storage, compute the profile pushed into state (and,
when different, written back to storage).  Logged in: re-initialize via
`syncedProfile` exactly when the sync guard fires, otherwise keep the stored
profile.  Logged out: reset to `defaultUserProfile` only when the stored id
differs from `'localUser'`. -/
def checkLoginStatus (env : AuthEnv) (stored : UserProfile) : UserProfile :=
  if env.isLoggedIn then
    if needsSync env stored then syncedProfile env stored else stored
  else
    if stored.id != "localUser" then defaultUserProfile else stored

/-- `const MAX_HISTORY_DISPLAY_ITEMS = 5;` -/
def MAX_HISTORY_DISPLAY_ITEMS : Nat := 5

/-- A completed classification event (`ClassificationRecord` in
`@/lib/types`). -/
structure ClassificationRecord where
  id : String
  imageDataUri : String
  category : String
  confidence : ℚ
  timestamp : Int
  points : Int
deriving DecidableEq

/-- The outcome of the awaited `classifyWaste` call: a response object whose
`category` may be missing (`none` models `undefined`/absent), or a thrown
error carrying a message. -/
inductive AIResult where
  | result (category : Option String) (confidence : ℚ)
  | failure (message : String)
deriving DecidableEq

/-- How `handleClassify` resolves: the error taxonomy of the spec
(`AuthRequired`, `InvalidResult`, `ClassificationFailed`) plus the successful
return value `{ category, confidence }`. -/
inductive ClassifyOutcome where
  | authRequired
  | invalidResult
  | classificationFailed (message : String)
  | classified (category : String) (confidence : ℚ)
deriving DecidableEq

/-- Whether a `ClassifyOutcome` is one of the three failure signals. -/
def ClassifyOutcome.isFailure : ClassifyOutcome → Bool
  | .classified _ _ => false
  | _ => true

/-- The page state touched by `handleClassify`: the React state fields plus
the persisted classification history (the `ecoSnapHistory` local-storage
record, read and written inside the handler). -/
structure DashState where
  userData : UserProfile
  history : List ClassificationRecord
  recentClassifications : List ClassificationRecord
  isClassifying : Bool
  classificationError : Option String
  isUploadModalOpen : Bool
  isLoggedIn : Bool
deriving DecidableEq

/-- The guard of `if (!aiResult || !aiResult.category)`: the category is
usable only when present and non-empty (JS truthiness). -/
def usableCategory : Option String → Option String
  | none => none
  | some c => if c = "" then none else some c

/-- `[newRecord, ...currentHistory].slice(0, 50)`: prepend the new record and
cap the history at 50 entries. -/
def historyStep (currentHistory : List ClassificationRecord)
    (newRecord : ClassificationRecord) : List ClassificationRecord :=
  (newRecord :: currentHistory).take 50

/-- The ClassificationOrchestrator: `handleClassify(imageDataUri,
categoryUserInitiatedWith)` as a function of the page state, the classifier's
outcome, and the current time (`Date.now()`).  Unauthenticated callers are
rejected before any state change; a response without a usable category or a
thrown error records the error message and leaves profile and history alone;
on success a record is built, prepended to the capped history, mirrored into
the 5-entry display slice, and the profile is updated via
`applyClassification`.  The `categoryUserInitiatedWith` hint is only logged by
the source and never read. -/
def handleClassify (s : DashState) (imageDataUri : String)
    (categoryUserInitiatedWith : Option String) (ai : AIResult) (now : Int) :
    DashState × ClassifyOutcome :=
  if !s.isLoggedIn then
    (s, .authRequired)
  else
    match ai with
    | .failure msg =>
      ({ s with isClassifying := false, classificationError := some msg },
        .classificationFailed msg)
    | .result category confidence =>
      match usableCategory category with
      | none =>
        ({ s with
            isClassifying := false
            classificationError :=
              some "Could not classify the image. The AI returned no result or an invalid category." },
          .invalidResult)
      | some aiDeterminedSpecificCategory =>
        let pointsEarnedNow := pointsEarned aiDeterminedSpecificCategory
        let newRecord : ClassificationRecord :=
          { id := toString now
            imageDataUri := imageDataUri
            category := aiDeterminedSpecificCategory
            confidence := confidence
            timestamp := now
            points := pointsEarnedNow }
        let updatedHistory := historyStep s.history newRecord
        ({ s with
            history := updatedHistory
            recentClassifications := updatedHistory.take MAX_HISTORY_DISPLAY_ITEMS
            userData := applyClassification s.userData aiDeterminedSpecificCategory
            isClassifying := false
            classificationError := none
            isUploadModalOpen := false },
          .classified aiDeterminedSpecificCategory confidence)

/-- A logged-in page state holding the default guest profile and an empty
history, used to run the orchestrator on concrete inputs. -/
def demoState : DashState :=
  { userData := defaultUserProfile
    history := []
    recentClassifications := []
    isClassifying := false
    classificationError := none
    isUploadModalOpen := false
    isLoggedIn := true }

/-- The same page state while logged out. -/
def demoStateLoggedOut : DashState := { demoState with isLoggedIn := false }

theorem WASTE_POINTS_ge_ten : ∀ c p, WASTE_POINTS c = some p → 10 ≤ p := by
  intro c p h
  unfold WASTE_POINTS at h
  split at h <;> simp_all <;> omega

theorem pointsEarned_of_some : ∀ c p, WASTE_POINTS c = some p → pointsEarned c = p := by
  intro c p h
  have hp := WASTE_POINTS_ge_ten c p h
  unfold pointsEarned
  rw [h]
  simp
  omega

theorem pointsEarned_of_none : ∀ c, WASTE_POINTS c = none → pointsEarned c = 10 := by
  intro c h
  unfold pointsEarned
  rw [h]
  decide

theorem pointsEarned_ge_ten : ∀ c, 10 ≤ pointsEarned c := by
  intro c
  cases h : WASTE_POINTS c with
  | none => rw [pointsEarned_of_none c h]
  | some p => rw [pointsEarned_of_some c p h]; exact WASTE_POINTS_ge_ten c p h

theorem incCounter_fields (p : UserProfile) (k : CounterKey) :
    (incCounter p k).score = p.score ∧ (incCounter p k).co2Managed = p.co2Managed ∧
    (incCounter p k).itemsClassified = p.itemsClassified ∧ (incCounter p k).id = p.id ∧
    (incCounter p k).displayName = p.displayName ∧ (incCounter p k).email = p.email ∧
    (incCounter p k).avatar = p.avatar ∧
    (incCounter p k).challengesCompleted = p.challengesCompleted ∧
    (incCounter p k).badges = p.badges := by
  cases k <;> simp [incCounter]

theorem getCounter_incCounter_self (p : UserProfile) (k : CounterKey) :
    getCounter (incCounter p k) k = getCounter p k + 1 := by
  cases k <;> rfl

theorem getCounter_incCounter_ne (p : UserProfile) (k k2 : CounterKey) (h : k2 ≠ k) :
    getCounter (incCounter p k) k2 = getCounter p k2 := by
  cases k <;> cases k2 <;> first | rfl | exact absurd rfl h

theorem getCounter_scoreUpdate (p : UserProfile) (sc : Int) (co : ℚ) (it : Nat)
    (k : CounterKey) :
    getCounter
      { p with score := sc, co2Managed := co, itemsClassified := it } k = getCounter p k := by
  cases k <;> rfl

theorem applyClassification_score (p : UserProfile) (c : String) :
    (applyClassification p c).score = p.score + pointsEarned c := by
  unfold applyClassification
  cases hq : quantityKeyFor c <;> simp [hq, (incCounter_fields _ _).1]

theorem applyClassification_itemsClassified (p : UserProfile) (c : String) :
    (applyClassification p c).itemsClassified = p.itemsClassified + 1 := by
  unfold applyClassification
  cases hq : quantityKeyFor c <;> simp [hq, (incCounter_fields _ _).2.2.1]

theorem applyClassification_co2Managed (p : UserProfile) (c : String) :
    (applyClassification p c).co2Managed =
      roundTenths (p.co2Managed + (pointsEarned c : ℚ) * CO2_SAVED_PER_POINT) := by
  unfold applyClassification
  cases hq : quantityKeyFor c <;> simp [hq, (incCounter_fields _ _).2.1]

theorem applyClassification_identity (p : UserProfile) (c : String) :
    (applyClassification p c).id = p.id ∧ (applyClassification p c).displayName = p.displayName ∧
    (applyClassification p c).email = p.email ∧ (applyClassification p c).avatar = p.avatar ∧
    (applyClassification p c).challengesCompleted = p.challengesCompleted ∧
    (applyClassification p c).badges = p.badges := by
  unfold applyClassification
  cases hq : quantityKeyFor c <;>
    simp [hq, (incCounter_fields _ _).2.2.2.1, (incCounter_fields _ _).2.2.2.2.1,
      (incCounter_fields _ _).2.2.2.2.2.1, (incCounter_fields _ _).2.2.2.2.2.2.1,
      (incCounter_fields _ _).2.2.2.2.2.2.2.1, (incCounter_fields _ _).2.2.2.2.2.2.2.2]

theorem applyClassification_counter_mapped (p : UserProfile) (c : String) (k : CounterKey)
    (h : quantityKeyFor c = some k) :
    getCounter (applyClassification p c) k = getCounter p k + 1 ∧
    ∀ k2, k2 ≠ k → getCounter (applyClassification p c) k2 = getCounter p k2 := by
  unfold applyClassification
  simp only [h]
  constructor
  · rw [getCounter_incCounter_self, getCounter_scoreUpdate]
  · intro k2 hk2
    rw [getCounter_incCounter_ne _ _ _ hk2, getCounter_scoreUpdate]

theorem applyClassification_counter_unmapped (p : UserProfile) (c : String)
    (h : quantityKeyFor c = none) :
    ∀ k, getCounter (applyClassification p c) k = getCounter p k := by
  intro k
  unfold applyClassification
  simp only [h]
  rw [getCounter_scoreUpdate]

theorem LEVELS_reverse :
    LEVELS.reverse = [diamondLevel, goldLevel, silverLevel, bronzeLevel] := rfl

theorem getCurrentLevel_eq (s : Int) :
    getCurrentLevel s =
      if 3000 ≤ s then diamondLevel
      else if 1500 ≤ s then goldLevel
      else if 500 ≤ s then silverLevel
      else bronzeLevel := by
  unfold getCurrentLevel
  rw [LEVELS_reverse]
  simp only [findFirstLevel, diamondLevel, goldLevel, silverLevel, bronzeLevel, ge_iff_le]
  split_ifs <;> simp_all

theorem scorePercentage_bounds (s : Int) (level : LevelInfo) :
    0 ≤ scorePercentage s level ∧ scorePercentage s level ≤ 100 := by
  unfold scorePercentage
  cases h : level.targetForNext with
  | none => norm_num
  | some target =>
    simp only [h, ge_iff_le]
    by_cases hr : target - level.minScore > 0
    · rw [if_pos hr]
      refine ⟨le_min ?_ (by norm_num), min_le_right _ _⟩
      apply mul_nonneg _ (by norm_num)
      apply div_nonneg
      · exact_mod_cast le_max_left 0 (s - level.minScore)
      · exact_mod_cast le_of_lt hr
    · rw [if_neg hr]
      split_ifs <;> norm_num

/-- C1, counterexample: `plastic` has a points-table entry (50 points), yet a
classification of `plastic` increments no per-category counter at all — every
counter of the updated default profile is still 0, including `totalPlastic` —
because `verticalLogCategories` has no entry with id `plastic`.  The claim
demands that exactly one counter increase for every pointed category. -/
theorem applyClassification_known_category_counterexample :
    WASTE_POINTS "plastic" = some 50 ∧
    (applyClassification defaultUserProfile "plastic").score = 50 ∧
    (applyClassification defaultUserProfile "plastic").itemsClassified = 1 ∧
    (applyClassification defaultUserProfile "plastic").totalPlastic = 0 ∧
    (applyClassification defaultUserProfile "plastic").totalEwaste = 0 ∧
    (applyClassification defaultUserProfile "plastic").totalBiowaste = 0 ∧
    (applyClassification defaultUserProfile "plastic").totalCardboard = 0 ∧
    (applyClassification defaultUserProfile "plastic").totalPaper = 0 ∧
    (applyClassification defaultUserProfile "plastic").totalGlass = 0 ∧
    (applyClassification defaultUserProfile "plastic").totalMetal = 0 ∧
    (applyClassification defaultUserProfile "plastic").totalOrganic = 0 ∧
    (applyClassification defaultUserProfile "plastic").totalOther = 0 ∧
    (applyClassification defaultUserProfile "plastic").totalPlasticOther = 0 ∧
    (applyClassification defaultUserProfile "plastic").totalPlasticPete = 0 ∧
    (applyClassification defaultUserProfile "plastic").totalPlasticHdpe = 0 ∧
    (applyClassification defaultUserProfile "plastic").totalPlasticPp = 0 ∧
    (applyClassification defaultUserProfile "plastic").totalPlasticPs = 0 := by
  decide

/-- C1 (amended): for every profile and every category with a points-table
entry, a successful classification adds exactly `pointsFor(C)` to the score,
1 to `itemsClassified`, recomputes `co2Managed` as the one-decimal rounding of
`prior + points * 0.1`, and leaves the identity fields, badges and
`challengesCompleted` unchanged; when the category additionally has an entry
in the per-category counter mapping, exactly that counter increases by 1 and
every other counter is unchanged, and when it has no mapping entry (the
categories `plastic`, `organic`, `recyclable`, `compostable`,
`non-recyclable`) no counter changes. -/
theorem applyClassification_known_category_spec :
    ∀ (P : UserProfile) (C : String) (pts : Int), WASTE_POINTS C = some pts →
      (applyClassification P C).score = P.score + pts ∧
      (applyClassification P C).itemsClassified = P.itemsClassified + 1 ∧
      (applyClassification P C).co2Managed =
        roundTenths (P.co2Managed + (pts : ℚ) * CO2_SAVED_PER_POINT) ∧
      (applyClassification P C).id = P.id ∧
      (applyClassification P C).displayName = P.displayName ∧
      (applyClassification P C).email = P.email ∧
      (applyClassification P C).avatar = P.avatar ∧
      (applyClassification P C).challengesCompleted = P.challengesCompleted ∧
      (applyClassification P C).badges = P.badges ∧
      (∀ k, quantityKeyFor C = some k →
        getCounter (applyClassification P C) k = getCounter P k + 1 ∧
        ∀ k2, k2 ≠ k → getCounter (applyClassification P C) k2 = getCounter P k2) ∧
      (quantityKeyFor C = none →
        ∀ k, getCounter (applyClassification P C) k = getCounter P k) := by
  intro P C pts h
  have hpe := pointsEarned_of_some C pts h
  have hid := applyClassification_identity P C
  refine ⟨?_, applyClassification_itemsClassified P C, ?_, hid.1, hid.2.1, hid.2.2.1,
    hid.2.2.2.1, hid.2.2.2.2.1, hid.2.2.2.2.2, ?_, ?_⟩
  · rw [applyClassification_score, hpe]
  · rw [applyClassification_co2Managed, hpe]
  · intro k hk
    exact applyClassification_counter_mapped P C k hk
  · intro hk
    exact applyClassification_counter_unmapped P C hk

/-- C1 witness: the amended theorem applied to the default profile and the
category `cardboard` (80 points). -/
theorem applyClassification_known_category_spec_witness :
    WASTE_POINTS "cardboard" = some 80 ∧
    (applyClassification defaultUserProfile "cardboard").score =
      defaultUserProfile.score + 80 :=
  ⟨by decide,
    (applyClassification_known_category_spec defaultUserProfile "cardboard" 80 (by decide)).1⟩

/-- C3: a category with no entry in the per-category counter mapping still
increments `itemsClassified` by 1 and changes no counter, and when it also
has no known point value the fallback award is the `other` category's 10
points. -/
theorem applyClassification_unmapped_category_spec :
    ∀ (P : UserProfile) (C : String), quantityKeyFor C = none →
      (WASTE_POINTS C = none →
        WASTE_POINTS "other" = some 10 ∧ (applyClassification P C).score = P.score + 10) ∧
      (applyClassification P C).itemsClassified = P.itemsClassified + 1 ∧
      ∀ k, getCounter (applyClassification P C) k = getCounter P k := by
  intro P C h
  refine ⟨?_, applyClassification_itemsClassified P C,
    applyClassification_counter_unmapped P C h⟩
  intro hp
  refine ⟨by decide, ?_⟩
  rw [applyClassification_score, pointsEarned_of_none C hp]

/-- C3 witness: the theorem applied to the default profile and the unknown
category `battery`. -/
theorem applyClassification_unmapped_category_spec_witness :
    quantityKeyFor "battery" = none ∧ WASTE_POINTS "battery" = none ∧
    (applyClassification defaultUserProfile "battery").score = defaultUserProfile.score + 10 :=
  ⟨by decide, by decide,
    ((applyClassification_unmapped_category_spec defaultUserProfile "battery" (by decide)).1
      (by decide)).2⟩

/-- C10: every points-table entry is at least 10, the fallback award for an
unknown category is exactly 10, and a successful classification through the
orchestrator therefore raises the score by at least 10 — strictly. -/
theorem classification_min_points_spec :
    (∀ C pts, WASTE_POINTS C = some pts → 10 ≤ pts) ∧
    (∀ C, WASTE_POINTS C = none → pointsEarned C = 10) ∧
    (∀ (s : DashState) img hint c conf (t : Int), s.isLoggedIn = true → c ≠ "" →
      (handleClassify s img hint (.result (some c) conf) t).1.userData.score =
        s.userData.score + pointsEarned c ∧
      s.userData.score + 10 ≤
        (handleClassify s img hint (.result (some c) conf) t).1.userData.score) := by
  refine ⟨WASTE_POINTS_ge_ten, pointsEarned_of_none, ?_⟩
  intro s img hint c conf t hlog hc
  have hscore :
      (handleClassify s img hint (.result (some c) conf) t).1.userData.score =
        s.userData.score + pointsEarned c := by
    unfold handleClassify
    rw [hlog]
    simp only [usableCategory, if_neg hc, Bool.not_true, Bool.false_eq_true, if_false]
    exact applyClassification_score s.userData c
  refine ⟨hscore, ?_⟩
  rw [hscore]
  have := pointsEarned_ge_ten c
  omega

/-- C10 witness: a concrete successful classification of `glass` from the
demo state. -/
theorem classification_min_points_spec_witness :
    demoState.isLoggedIn = true ∧ "glass" ≠ "" ∧
    demoState.userData.score + 10 ≤
      (handleClassify demoState "img" none (.result (some "glass") 1) 7).1.userData.score :=
  ⟨by decide, by decide,
    (classification_min_points_spec.2.2 demoState "img" none "glass" 1 7
      (by decide) (by decide)).2⟩

/-- C2, counterexample: a classifier response with the unknown category
`battery` does NOT fail with InvalidResult — `handleClassify` only rejects an
absent (falsy) category, so the run succeeds, records `battery`, and raises
the score by the fallback 10 points. -/
theorem handleClassify_unknown_category_counterexample :
    (handleClassify demoState "img" none (.result (some "battery") 1) 7).2 =
      .classified "battery" 1 ∧
    (handleClassify demoState "img" none (.result (some "battery") 1) 7).1.userData.score = 10 ∧
    demoState.userData.score = 0 := by
  refine ⟨rfl, ?_, rfl⟩
  decide

/-- C2 (amended): if the classifier's response carries no usable category
(absent or empty string), `handleClassify` fails with the InvalidResult signal
and neither profile nor history changes; but a response with a non-empty
category outside the known enumeration (such as `battery`) does not fail: it
is accepted as-is and scored with the fallback `other` award of 10 points. -/
theorem handleClassify_no_category_invalid_spec :
    ∀ (s : DashState) img hint conf (t : Int), s.isLoggedIn = true →
      ((handleClassify s img hint (.result none conf) t).2 = .invalidResult ∧
       (handleClassify s img hint (.result none conf) t).1.userData = s.userData ∧
       (handleClassify s img hint (.result none conf) t).1.history = s.history) ∧
      ((handleClassify s img hint (.result (some "") conf) t).2 = .invalidResult ∧
       (handleClassify s img hint (.result (some "") conf) t).1.userData = s.userData ∧
       (handleClassify s img hint (.result (some "") conf) t).1.history = s.history) ∧
      (∀ c : String, c ≠ "" → WASTE_POINTS c = none →
        (handleClassify s img hint (.result (some c) conf) t).2 = .classified c conf ∧
        (handleClassify s img hint (.result (some c) conf) t).1.userData.score =
          s.userData.score + 10) := by
  intro s img hint conf t hlog
  unfold handleClassify
  rw [hlog]
  refine ⟨by simp [usableCategory], by simp [usableCategory], ?_⟩
  intro c hc hp
  simp [usableCategory, hc, applyClassification_score, pointsEarned_of_none c hp]

/-- C2 witness: the amended theorem at the demo state; the `battery` branch is
exercised through the third conjunct. -/
theorem handleClassify_no_category_invalid_spec_witness :
    demoState.isLoggedIn = true ∧ "battery" ≠ "" ∧ WASTE_POINTS "battery" = none ∧
    (handleClassify demoState "img" none (.result (some "battery") 1) 7).1.userData.score =
      demoState.userData.score + 10 :=
  ⟨by decide, by decide, by decide,
    ((handleClassify_no_category_invalid_spec demoState "img" none 1 7 (by decide)).2.2
      "battery" (by decide) (by decide)).2⟩

/-- C5: whenever `handleClassify` resolves to one of the three failure
signals (AuthRequired, InvalidResult, ClassificationFailed), the profile, the
persisted history and the display slice are all left exactly as they were. -/
theorem handleClassify_failure_no_mutation :
    ∀ (s : DashState) img hint ai (t : Int),
      (handleClassify s img hint ai t).2.isFailure = true →
      (handleClassify s img hint ai t).1.userData = s.userData ∧
      (handleClassify s img hint ai t).1.history = s.history ∧
      (handleClassify s img hint ai t).1.recentClassifications = s.recentClassifications := by
  intro s img hint ai t
  unfold handleClassify
  cases hb : s.isLoggedIn with
  | false => intro _; simp
  | true =>
    simp only [Bool.not_true, Bool.false_eq_true, if_false]
    cases ai with
    | failure msg => intro _; simp
    | result cat conf =>
      cases hu : usableCategory cat with
      | none => intro _; simp [hu]
      | some c =>
        intro hf
        simp [hu, ClassifyOutcome.isFailure] at hf

/-- C5 witness: an unauthenticated attempt is a failure and mutates nothing. -/
theorem handleClassify_failure_no_mutation_witness :
    (handleClassify demoStateLoggedOut "img" none (.result (some "glass") 1) 7).2.isFailure
        = true ∧
    (handleClassify demoStateLoggedOut "img" none (.result (some "glass") 1) 7).1.userData =
      demoStateLoggedOut.userData :=
  ⟨by decide,
    (handleClassify_failure_no_mutation demoStateLoggedOut "img" none
      (.result (some "glass") 1) 7 (by decide)).1⟩

/-- C6: the persisted history stays within 50 entries under any number of
successful classifications, each new record is prepended, a full list evicts
exactly its oldest (last) entry, and the display slice is always the first
five entries of the persisted list. -/
theorem history_capacity_spec :
    (∀ (h rs : List ClassificationRecord),
      h.length ≤ 50 → (rs.foldl historyStep h).length ≤ 50) ∧
    (∀ h r, (historyStep h r).head? = some r) ∧
    (∀ h r, h.length = 50 → historyStep h r = r :: h.dropLast) ∧
    (∀ (s : DashState) img hint c conf (t : Int), s.isLoggedIn = true → c ≠ "" →
      (handleClassify s img hint (.result (some c) conf) t).1.history =
        historyStep s.history
          { id := toString t, imageDataUri := img, category := c, confidence := conf,
            timestamp := t, points := pointsEarned c } ∧
      (handleClassify s img hint (.result (some c) conf) t).1.recentClassifications =
        (handleClassify s img hint (.result (some c) conf) t).1.history.take
          MAX_HISTORY_DISPLAY_ITEMS) := by
  refine ⟨?_, ?_, ?_, ?_⟩
  · intro h rs
    induction rs generalizing h with
    | nil => intro hh; exact hh
    | cons r rs ih =>
      intro _
      apply ih
      simp only [historyStep, List.length_take]
      omega
  · intro h r
    rfl
  · intro h r hh
    have : h.dropLast = h.take 49 := by
      rw [List.dropLast_eq_take, hh]
    rw [this]
    show (r :: h).take (49 + 1) = r :: h.take 49
    rw [List.take_succ_cons]
  · intro s img hint c conf t hlog hc
    unfold handleClassify
    rw [hlog]
    simp [usableCategory, hc]

/-- C6 witness: the eviction clause applied to a concrete full history of 50
records, and the orchestrator clause applied to a concrete successful run. -/
theorem history_capacity_spec_witness :
    (List.replicate 50
        ({ id := "0", imageDataUri := "i", category := "glass", confidence := 1,
           timestamp := 0, points := 30 } : ClassificationRecord)).length = 50 ∧
    historyStep
        (List.replicate 50
          ({ id := "0", imageDataUri := "i", category := "glass", confidence := 1,
             timestamp := 0, points := 30 } : ClassificationRecord))
        { id := "7", imageDataUri := "j", category := "paper", confidence := 1,
          timestamp := 7, points := 70 } =
      { id := "7", imageDataUri := "j", category := "paper", confidence := 1,
          timestamp := 7, points := 70 } ::
        (List.replicate 50
          ({ id := "0", imageDataUri := "i", category := "glass", confidence := 1,
             timestamp := 0, points := 30 } : ClassificationRecord)).dropLast :=
  ⟨by simp, history_capacity_spec.2.2.1 _ _ (by simp)⟩

/-- C9: `handleClassify` never reads the category the user initiated the
upload from — two runs differing only in that hint produce identical states
and identical outcomes (hence the same record, category and points). -/
theorem handleClassify_hint_independent :
    ∀ (s : DashState) img hint1 hint2 ai (t : Int),
      handleClassify s img hint1 ai t = handleClassify s img hint2 ai t := by
  intro s img hint1 hint2 ai t
  rfl

/-- C7: `getCurrentLevel` returns a member of the table; for a nonnegative
score it is a tier whose `minScore` does not exceed the score and is maximal
among such tiers; a negative score (below all thresholds) yields the lowest
tier Bronze; and the function is monotone in tier order (tiers being totally
ordered by `minScore`). -/
theorem getCurrentLevel_spec :
    (∀ s : Int, getCurrentLevel s ∈ LEVELS) ∧
    (∀ s : Int, 0 ≤ s → (getCurrentLevel s).minScore ≤ s) ∧
    (∀ s : Int, ∀ l, l ∈ LEVELS → l.minScore ≤ s →
      l.minScore ≤ (getCurrentLevel s).minScore) ∧
    (∀ s : Int, s < 0 → getCurrentLevel s = bronzeLevel) ∧
    (∀ a b : Int, a ≤ b → (getCurrentLevel a).minScore ≤ (getCurrentLevel b).minScore) := by
  refine ⟨?_, ?_, ?_, ?_, ?_⟩
  · intro s
    rw [getCurrentLevel_eq]
    split_ifs <;> simp [LEVELS]
  · intro s hs
    rw [getCurrentLevel_eq]
    split_ifs <;>
      simp [bronzeLevel, silverLevel, goldLevel, diamondLevel] <;> omega
  · intro s l hl hls
    simp only [LEVELS, List.mem_cons, List.not_mem_nil, or_false] at hl
    rw [getCurrentLevel_eq]
    rcases hl with rfl | rfl | rfl | rfl <;> split_ifs <;>
      simp_all [bronzeLevel, silverLevel, goldLevel, diamondLevel]
  · intro s hs
    rw [getCurrentLevel_eq]
    split_ifs <;> first | rfl | omega
  · intro a b hab
    rw [getCurrentLevel_eq a, getCurrentLevel_eq b]
    split_ifs <;>
      simp [bronzeLevel, silverLevel, goldLevel, diamondLevel] <;> omega

/-- C7 witness: concrete scores 480 (Bronze), 510 (Silver) and -5 (defensive
Bronze). -/
theorem getCurrentLevel_spec_witness :
    (0 : Int) ≤ 480 ∧ (getCurrentLevel 480).minScore ≤ 480 ∧
    (-5 : Int) < 0 ∧ getCurrentLevel (-5) = bronzeLevel ∧
    (480 : Int) ≤ 510 ∧ (getCurrentLevel 480).minScore ≤ (getCurrentLevel 510).minScore :=
  ⟨by decide, getCurrentLevel_spec.2.1 480 (by decide), by decide,
    getCurrentLevel_spec.2.2.2.1 (-5) (by decide), by decide,
    getCurrentLevel_spec.2.2.2.2 480 510 (by decide)⟩

/-- C8: the progress percentage for the current level always lies in
[0, 100]; it is 100 when the level's target is unbounded (`Infinity`,
Diamond); and on a level whose target range is zero or degenerate it is 100
whenever the score reaches the level's `minScore`. -/
theorem scorePercentage_spec :
    (∀ s : Int, 0 ≤ scorePercentage s (getCurrentLevel s) ∧
      scorePercentage s (getCurrentLevel s) ≤ 100) ∧
    (∀ s : Int, (getCurrentLevel s).targetForNext = none →
      scorePercentage s (getCurrentLevel s) = 100) ∧
    (∀ (level : LevelInfo) (s target : Int), level.targetForNext = some target →
      target - level.minScore ≤ 0 → level.minScore ≤ s → scorePercentage s level = 100) := by
  refine ⟨fun s => scorePercentage_bounds s _, ?_, ?_⟩
  · intro s h
    unfold scorePercentage
    simp [h]
  · intro level s target h hdeg hmin
    unfold scorePercentage
    simp only [h]
    rw [if_neg (by omega), if_pos hmin]

/-- C8 witness: the unbounded clause at score 3000 (Diamond) and the
degenerate-range clause on an ad-hoc level with `minScore = target = 5`. -/
theorem scorePercentage_spec_witness :
    (getCurrentLevel 3000).targetForNext = none ∧
    scorePercentage 3000 (getCurrentLevel 3000) = 100 ∧
    ({ bronzeLevel with minScore := 5, targetForNext := some 5 } : LevelInfo).targetForNext
        = some 5 ∧
    (5 : Int) - 5 ≤ 0 ∧
    ({ bronzeLevel with minScore := 5, targetForNext := some 5 } : LevelInfo).minScore
        ≤ (7 : Int) ∧
    scorePercentage 7 { bronzeLevel with minScore := 5, targetForNext := some 5 } = 100 :=
  ⟨by decide, scorePercentage_spec.2.1 3000 (by decide), by decide, by decide, by decide,
    scorePercentage_spec.2.2 { bronzeLevel with minScore := 5, targetForNext := some 5 }
      7 5 (by decide) (by decide) (by decide)⟩

/-- C4, counterexample: while logged out, a stored guest profile (id
`localUser`) carrying progress is KEPT, not replaced by the default guest
profile — `checkLoginStatus` only resets to defaults when the stored id is
not `localUser`.  The claim says logging out always returns the default guest
profile, discarding prior guest-session progress. -/
theorem checkLoginStatus_logout_counterexample :
    checkLoginStatus { isLoggedIn := false, userEmail := none, userName := none }
        { defaultUserProfile with score := 100 } ≠ defaultUserProfile ∧
    (checkLoginStatus { isLoggedIn := false, userEmail := none, userName := none }
        { defaultUserProfile with score := 100 }).score = 100 := by
  decide

/-- C4 (amended): while logged out, the stored profile is replaced by the
default guest profile exactly when its id is not `localUser`; otherwise it is
kept as-is (guest progress included).  While logged in, if the login email is
present (truthy) and equals the stored email, every counter (score,
co2Managed, itemsClassified, per-category totals, challengesCompleted,
badges) is preserved; and whenever the re-synchronization guard fires without
that email match, the profile is re-initialized from the new identity fields
with all counters zero. -/
theorem checkLoginStatus_reconcile_spec :
    ∀ (env : AuthEnv) (stored : UserProfile),
      (env.isLoggedIn = false →
        checkLoginStatus env stored =
          (if stored.id = "localUser" then stored else defaultUserProfile)) ∧
      (env.isLoggedIn = true → ∀ e : String, e ≠ "" → env.userEmail = some e →
        stored.email = e →
        (checkLoginStatus env stored).score = stored.score ∧
        (checkLoginStatus env stored).co2Managed = stored.co2Managed ∧
        (checkLoginStatus env stored).itemsClassified = stored.itemsClassified ∧
        (∀ k, getCounter (checkLoginStatus env stored) k = getCounter stored k) ∧
        (checkLoginStatus env stored).challengesCompleted = stored.challengesCompleted ∧
        (checkLoginStatus env stored).badges = stored.badges) ∧
      (env.isLoggedIn = true → needsSync env stored = true →
        preserveStats env stored = false →
        (checkLoginStatus env stored).score = 0 ∧
        (checkLoginStatus env stored).co2Managed = 0 ∧
        (checkLoginStatus env stored).itemsClassified = 0 ∧
        (∀ k, getCounter (checkLoginStatus env stored) k = 0) ∧
        (checkLoginStatus env stored).challengesCompleted = 0 ∧
        (checkLoginStatus env stored).badges = ([] : List String) ∧
        (checkLoginStatus env stored).displayName = displayNameFor env ∧
        (checkLoginStatus env stored).email = env.userEmail.getD "") := by
  intro env stored
  refine ⟨?_, ?_, ?_⟩
  · intro h
    unfold checkLoginStatus
    rw [h]
    by_cases hid : stored.id = "localUser" <;> simp [hid]
  · intro hlog e he hmail hsm
    have hkeep : preserveStats env stored = true := by
      simp [preserveStats, optTruthy, hmail, hsm, he]
    unfold checkLoginStatus
    rw [hlog]
    by_cases hs : needsSync env stored
    · simp only [hs, if_true, if_pos rfl]
      refine ⟨by simp [syncedProfile, hkeep], by simp [syncedProfile, hkeep],
        by simp [syncedProfile, hkeep], ?_, by simp [syncedProfile, hkeep],
        by simp [syncedProfile, hkeep]⟩
      intro k
      cases k <;> simp [syncedProfile, getCounter, hkeep]
    · simp [hs]
  · intro hlog hs hkeep
    unfold checkLoginStatus
    rw [hlog]
    simp only [hs, if_true, if_pos rfl]
    refine ⟨by simp [syncedProfile, hkeep], by simp [syncedProfile, hkeep],
      by simp [syncedProfile, hkeep], ?_, by simp [syncedProfile, hkeep],
      by simp [syncedProfile, hkeep], by simp [syncedProfile],
      by simp [syncedProfile, defaultUserProfile]⟩
    intro k
    cases k <;> simp [syncedProfile, getCounter, hkeep, defaultUserProfile]

/-- C4 witness: the logged-out clause on the default guest profile, the
email-match preservation clause, and the zeroing clause on a fresh login over
a guest profile. -/
theorem checkLoginStatus_reconcile_spec_witness :
    ((AuthEnv.mk false none none).isLoggedIn = false ∧
      checkLoginStatus (AuthEnv.mk false none none) defaultUserProfile =
        (if defaultUserProfile.id = "localUser" then defaultUserProfile
          else defaultUserProfile)) ∧
    ((AuthEnv.mk true (some "a@b.c") none).isLoggedIn = true ∧ "a@b.c" ≠ "" ∧
      ({ defaultUserProfile with email := "a@b.c", id := "a@b.c" } : UserProfile).email
        = "a@b.c" ∧
      (checkLoginStatus (AuthEnv.mk true (some "a@b.c") none)
        { defaultUserProfile with email := "a@b.c", id := "a@b.c" }).score =
        ({ defaultUserProfile with email := "a@b.c", id := "a@b.c" } : UserProfile).score) ∧
    (needsSync (AuthEnv.mk true (some "x@y.z") none) defaultUserProfile = true ∧
      preserveStats (AuthEnv.mk true (some "x@y.z") none) defaultUserProfile = false ∧
      (checkLoginStatus (AuthEnv.mk true (some "x@y.z") none) defaultUserProfile).score = 0) :=
  ⟨⟨by decide,
      (checkLoginStatus_reconcile_spec (AuthEnv.mk false none none)
        defaultUserProfile).1 (by decide)⟩,
    ⟨by decide, by decide, by decide,
      ((checkLoginStatus_reconcile_spec (AuthEnv.mk true (some "a@b.c") none)
        { defaultUserProfile with email := "a@b.c", id := "a@b.c" }).2.1 (by decide)
        "a@b.c" (by decide) (by decide) (by decide)).1⟩,
    ⟨by decide, by decide,
      ((checkLoginStatus_reconcile_spec (AuthEnv.mk true (some "x@y.z") none)
        defaultUserProfile).2.2 (by decide) (by decide) (by decide)).1⟩⟩

end EcoSnap

